import Mathlib

/-!
Shallow embedding of the DISCOM-CONNECT meter-reading backend.

The data model mirrors the Mongoose schemas (`User`, `MeterReading`), the
controller functions mirror `meterReading.controller` (list / get / create /
update / delete / radius search), and the middleware functions mirror
`auth.middleware` (`protect`) and `error.middleware` (`errorHandler`).
The document store is embedded as a list of records passed explicitly;
mutating operations return the resulting store alongside the HTTP-level
result, so "the store is unchanged" is an equation on the second component.
External collaborators (the MongoDB driver, the jsonwebtoken library, the
SHA-256 hash, the random-bytes source, the spherical-geometry predicate of
the 2dsphere index) are embedded as explicit parameters or as small models
described at their definitions.
-/

/-- Role enum of the User schema: `user` or `admin`. -/
inductive Role
  | user
  | admin
deriving DecidableEq

/-- Status enum of the MeterReading schema: `pending`, `approved`, `rejected`
(default `pending`). -/
inductive RStatus
  | pending
  | approved
  | rejected
deriving DecidableEq

/-- Unit enum of the MeterReading schema: `kWh` or `units` (default `units`). -/
inductive RUnit
  | kWh
  | units
deriving DecidableEq

/-- GeoJSON-style location subdocument: coordinates `[lng, lat]` plus a
free-text address. Coordinates are embedded as rationals. -/
structure Location where
  lng : ℚ
  lat : ℚ
  address : String
deriving DecidableEq

/-- The authenticated identity that `protect` attaches to the request
(`req.user = { id, role, name, email }`). -/
structure Identity where
  id : String
  role : Role
  name : String
  email : String
deriving DecidableEq

/-- A persisted User document. `password` stores the bcrypt hash; the reset
fields are set by `getResetPasswordToken`. -/
structure UserRec where
  id : String
  name : String
  email : String
  password : String
  role : Role
  resetPasswordToken : Option String := none
  resetPasswordExpire : Option Nat := none
deriving DecidableEq

/-- A persisted MeterReading document, following the MeterReading schema.
`user` and `approvedBy` hold user ids (ObjectId references); `createdAt` is
the timestamps-plugin creation time in milliseconds. -/
structure Reading where
  id : String
  user : String
  meterNumber : String
  reading : ℚ
  unit : RUnit
  photo : String
  location : Location
  status : RStatus
  notes : Option String := none
  readerNotes : Option String := none
  approvedBy : Option String := none
  approvedAt : Option Nat := none
  createdAt : Nat := 0
deriving DecidableEq

/-- The `ErrorResponse` class of `utils/errorResponse`: a message plus an
HTTP status code. -/
structure ErrorResponse where
  message : String
  statusCode : Nat
deriving DecidableEq

/-- Lookup of a reading by id: `MeterReading.findById(id)`. -/
def findReading (store : List Reading) (rid : String) : Option Reading :=
  store.find? (fun r => decide (r.id = rid))

/-- Lookup of a user by id: `User.findById(id)`. -/
def findUser (store : List UserRec) (uid : String) : Option UserRec :=
  store.find? (fun u => decide (u.id = uid))

/-- Model of the document store sort `.sort({ createdAt: -1 })`: stable
insertion keeping larger `createdAt` first. -/
def insertByCreatedDesc (r : Reading) : List Reading → List Reading
  | [] => [r]
  | x :: xs =>
    if r.createdAt ≤ x.createdAt then x :: insertByCreatedDesc r xs
    else r :: x :: xs

/-- Sort a list of readings by `createdAt` descending (model of the
document-store sort used by the list endpoint). -/
def sortByCreatedDesc : List Reading → List Reading
  | [] => []
  | x :: xs => insertByCreatedDesc x (sortByCreatedDesc xs)

/-- Response shape of GET `/api/meters`: count, pagination metadata and the
page of readings. -/
structure ListResult where
  count : Nat
  currentPage : Nat
  totalPages : Nat
  totalItems : Nat
  data : List Reading
deriving DecidableEq

/-- The controller `getMeterReadings`. Builds the query: a status condition
when the `status` query parameter is present, and an owner condition
`query.user = req.user.id` exactly when the requester role is `user`;
counts the matches, sorts by `createdAt` descending, then applies
`skip = (page-1)*limit` and `limit`. `totalPages` models
`Math.ceil(total/limit)` for positive `limit`. -/
def getMeterReadings (requester : Identity) (page limit : Nat)
    (statusFilter : Option RStatus) (store : List Reading) : ListResult :=
  let skip := (page - 1) * limit
  let query : Reading → Bool := fun r =>
    (match statusFilter with
     | none => true
     | some s => decide (r.status = s))
    &&
    (match requester.role with
     | Role.user => decide (r.user = requester.id)
     | Role.admin => true)
  let matching := store.filter query
  let total := matching.length
  let sorted := sortByCreatedDesc matching
  let pageData := (sorted.drop skip).take limit
  { count := pageData.length
    currentPage := page
    totalPages := (total + limit - 1) / limit
    totalItems := total
    data := pageData }

/-- The controller `getMeterReading`: 404 when the id resolves to no reading;
401 when the requester is neither the owning user nor an admin; otherwise the
reading is returned. -/
def getMeterReading (requester : Identity) (rid : String)
    (store : List Reading) : Except ErrorResponse Reading :=
  match findReading store rid with
  | none =>
    Except.error ⟨"Meter reading not found with id of " ++ rid, 404⟩
  | some r =>
    if r.user ≠ requester.id ∧ requester.role ≠ Role.admin then
      Except.error
        ⟨"User " ++ requester.id ++
          " is not authorized to access this meter reading", 401⟩
    else Except.ok r

/-- Request body of POST `/api/meters`. A body-supplied `user` field is not
modelled because the controller overwrites it with `req.user.id` before use.
Optional fields left out of the request take the schema defaults. -/
structure CreateBody where
  meterNumber : String
  reading : ℚ
  unit : Option RUnit := none
  photo : String
  location : Location
  status : Option RStatus := none
  notes : Option String := none
  readerNotes : Option String := none
deriving DecidableEq

/-- The controller `createMeterReading`. `valid` is the outcome of the
route-level express-validator checks (`validationResult`); `newId` and `now`
stand for the driver-generated document id and the timestamps-plugin
creation time. Attaches `req.user.id` as owner, rejects with 400 when a
`pending` reading for the same meter number already exists (`findOne`
pre-check), and otherwise persists, the schema defaults filling the absent
`unit` and `status` fields. -/
def createMeterReading (requester : Identity) (body : CreateBody)
    (valid : Bool) (newId : String) (now : Nat) (store : List Reading) :
    Except ErrorResponse Reading × List Reading :=
  if valid = false then
    (Except.error ⟨"Validation failed", 400⟩, store)
  else
    match store.find? (fun r =>
        decide (r.meterNumber = body.meterNumber ∧ r.status = RStatus.pending)) with
    | some _ =>
      (Except.error
        ⟨"There is already a pending reading for meter " ++ body.meterNumber,
          400⟩, store)
    | none =>
      let created : Reading :=
        { id := newId
          user := requester.id
          meterNumber := body.meterNumber
          reading := body.reading
          unit := body.unit.getD RUnit.units
          photo := body.photo
          location := body.location
          status := body.status.getD RStatus.pending
          notes := body.notes
          readerNotes := body.readerNotes
          approvedBy := none
          approvedAt := none
          createdAt := now }
      (Except.ok created, store ++ [created])

/-- Request body of PUT `/api/meters/:id`: a partial update; every field is
optional and only present fields are applied, as `findByIdAndUpdate` does
with a plain update document. -/
structure UpdateBody where
  meterNumber : Option String := none
  reading : Option ℚ := none
  unit : Option RUnit := none
  photo : Option String := none
  status : Option RStatus := none
  notes : Option String := none
  readerNotes : Option String := none
  approvedBy : Option String := none
  approvedAt : Option Nat := none
deriving DecidableEq

/-- Field-wise application of a partial update document to a reading, the
semantics of `findByIdAndUpdate(id, req.body)`: each field present in the
body replaces the stored field. -/
def applyUpdate (r : Reading) (b : UpdateBody) : Reading :=
  { r with
    meterNumber := b.meterNumber.getD r.meterNumber
    reading := b.reading.getD r.reading
    unit := b.unit.getD r.unit
    photo := b.photo.getD r.photo
    status := b.status.getD r.status
    notes := match b.notes with | some n => some n | none => r.notes
    readerNotes := match b.readerNotes with | some n => some n | none => r.readerNotes
    approvedBy := match b.approvedBy with | some a => some a | none => r.approvedBy
    approvedAt := match b.approvedAt with | some a => some a | none => r.approvedAt }

/-- The controller `updateMeterReading`: 404 when the reading is missing; 401
when the requester is neither owner nor admin; otherwise, when the body
carries a `status` and the requester is an admin, `approvedBy := req.user.id`
and `approvedAt := now` are added to the body, and the (possibly augmented)
body is applied as a partial update via `findByIdAndUpdate`. -/
def updateMeterReading (requester : Identity) (rid : String)
    (body : UpdateBody) (now : Nat) (store : List Reading) :
    Except ErrorResponse Reading × List Reading :=
  match findReading store rid with
  | none =>
    (Except.error ⟨"Meter reading not found with id of " ++ rid, 404⟩, store)
  | some r =>
    if r.user ≠ requester.id ∧ requester.role ≠ Role.admin then
      (Except.error
        ⟨"User " ++ requester.id ++
          " is not authorized to update this meter reading", 401⟩, store)
    else
      let body2 :=
        if body.status.isSome = true ∧ requester.role = Role.admin then
          { body with approvedBy := some requester.id, approvedAt := some now }
        else body
      let updated := applyUpdate r body2
      (Except.ok updated,
        store.map (fun x => if x.id = rid then updated else x))

/-- The controller `deleteMeterReading`: 404 when missing; 401 when the
requester is neither owner nor admin; otherwise the photo file is unlinked
when the reading has one and it exists on disk (`files` models the uploads
directory), and the record is removed via `deleteOne`. -/
def deleteMeterReading (requester : Identity) (rid : String)
    (store : List Reading) (files : List String) :
    Except ErrorResponse Unit × List Reading × List String :=
  match findReading store rid with
  | none =>
    (Except.error ⟨"Meter reading not found with id of " ++ rid, 404⟩,
      store, files)
  | some r =>
    if r.user ≠ requester.id ∧ requester.role ≠ Role.admin then
      (Except.error
        ⟨"User " ++ requester.id ++
          " is not authorized to delete this meter reading", 401⟩,
        store, files)
    else
      let files2 := if r.photo ≠ "" ∧ r.photo ∈ files
        then files.erase r.photo else files
      (Except.ok (), store.filter (fun x => decide (x.id ≠ rid)), files2)

/-- The in-source mock geocoder: returns latitude 0 and longitude 0 for every
zipcode, as the pair (latitude, longitude). -/
def geocode (_zipcode : String) : ℚ × ℚ := (0, 0)

/-- Response of the radius search, extended with the center `[lng, lat]` and
the radius (in radians) handed to the `$centerSphere` query so that those
arguments are observable. -/
structure RadiusResult where
  center : ℚ × ℚ
  radius : ℚ
  count : Nat
  data : List Reading
deriving DecidableEq

/-- The controller `getReadingsInRadius`. `geoWithin` is the spherical-cap
membership predicate of the 2dsphere index (external database semantics,
taken as a parameter); `distance` is the numeric value of the distance path
parameter after `parseInt`. The radius is the distance divided by the Earth
radius in miles, 3963, and the query filters the store by the cap centered
on the geocoded coordinates. -/
def getReadingsInRadius (geoWithin : ℚ × ℚ → ℚ → Location → Bool)
    (zipcode : String) (distance : Nat) (store : List Reading) :
    RadiusResult :=
  let loc := geocode zipcode
  let lat := loc.1
  let lng := loc.2
  let radius := (distance : ℚ) / 3963
  let readings := store.filter (fun r => geoWithin (lng, lat) radius r.location)
  { center := (lng, lat)
    radius := radius
    count := readings.length
    data := readings }

/-- Model of the external jsonwebtoken library: a signed token binds the
payload id to the signing secret; anything else on the wire is a malformed
token. Expiry is not modelled (no clock is passed to verification here). -/
inductive Jwt
  | signed (id : String) (secret : String)
  | malformed (s : String)
deriving DecidableEq

/-- Model of `jwt.verify`: succeeds with the payload id exactly when the
token was signed with the same secret; fails (throws, in the source) on any
other token. -/
def verifyJwt (t : Jwt) (secret : String) : Option String :=
  match t with
  | Jwt.signed i s => if s = secret then some i else none
  | Jwt.malformed _ => none

/-- The shapes an `Authorization` header can take for `protect`: absent, not
starting with `Bearer`, starting with `Bearer` but with no second
space-separated part, or carrying a token. -/
inductive AuthHeader
  | missing
  | nonBearer (s : String)
  | bearerOnly
  | bearer (t : Jwt)

/-- The middleware `protect`. Absent or non-Bearer header leaves `token`
unset: 401 "no token". A Bearer header with no token part, a missing or
empty `JWT_SECRET`, or a failed verification all throw inside the try block:
401 "token failed". A verified id whose user no longer exists: 404.
Otherwise the identity `{ id, role, name, email }` is attached (the user is
resolved with select minus-password, so no password reaches the identity). -/
def protect (hdr : AuthHeader) (envSecret : Option String)
    (store : List UserRec) : Except ErrorResponse Identity :=
  match hdr with
  | AuthHeader.missing => Except.error ⟨"Not authorized, no token", 401⟩
  | AuthHeader.nonBearer _ => Except.error ⟨"Not authorized, no token", 401⟩
  | AuthHeader.bearerOnly => Except.error ⟨"Not authorized, token failed", 401⟩
  | AuthHeader.bearer t =>
    match envSecret with
    | none => Except.error ⟨"Not authorized, token failed", 401⟩
    | some sec =>
      if sec = "" then Except.error ⟨"Not authorized, token failed", 401⟩
      else
        match verifyJwt t sec with
        | none => Except.error ⟨"Not authorized, token failed", 401⟩
        | some uid =>
          match findUser store uid with
          | none => Except.error ⟨"User not found", 404⟩
          | some u => Except.ok ⟨u.id, u.role, u.name, u.email⟩

/-- The User method `getSignedJwtToken`: signs `{ id: this._id }` with
the JWT_SECRET environment value, falling back to the literal your_jwt_secret when absent or empty. -/
def getSignedJwtToken (u : UserRec) (envSecret : Option String) : Jwt :=
  Jwt.signed u.id
    (match envSecret with
     | some s => if s = "" then "your_jwt_secret" else s
     | none => "your_jwt_secret")

/-- The User method `getResetPasswordToken`. `sha256` is the external hash
(crypto.createHash), `randomToken` the hex string produced by the external
`crypto.randomBytes(20)`, `now` the current time in milliseconds. Stores the
hash of the token and an expiry of now + 10 minutes on the user and returns
the plaintext token. -/
def getResetPasswordToken (sha256 : String → String) (randomToken : String)
    (now : Nat) (u : UserRec) : String × UserRec :=
  (randomToken,
    { u with
      resetPasswordToken := some (sha256 randomToken)
      resetPasswordExpire := some (now + 10 * 60 * 1000) })

/-- The NODE_ENV values the error middleware branches on: `development`,
`production`, or anything else. -/
inductive Env
  | development
  | production
  | other
deriving DecidableEq

/-- The error object reaching `errorHandler`, flattened: name and message,
an optional explicit status code (`ErrorResponse` / `AppError` carry one),
the MongoDB driver error code and keyValue of a duplicate-key error, the
shape of a mongoose CastError or ValidationError, the shape of a Joi
validation error, and an optional stack trace. An absent `keyValue` is the
empty list. -/
structure RawError where
  name : String := "Error"
  message : String := ""
  statusCode : Option Nat := none
  isOperational : Bool := false
  code : Option Nat := none
  keyValue : List (String × String) := []
  isCastError : Bool := false
  path : String := ""
  value : String := ""
  isValidationError : Bool := false
  validationMessages : List String := []
  isJoiError : Bool := false
  joiMessages : List String := []
  stack : Option String := none
deriving DecidableEq

/-- The JSON response the error middleware sends: a status code and the body
key-value pairs it passes to `res.json` (`success` and `error` — the body is
built here key by key so that the absence of any other key, in particular a
stack trace, is part of the embedding). -/
structure ErrResponse where
  statusCode : Nat
  body : List (String × String)
deriving DecidableEq

/-- JavaScript `Array.prototype.join` with a separator. -/
def joinWith (sep : String) : List String → String
  | [] => ""
  | [x] => x
  | x :: xs => x ++ sep ++ joinWith sep xs

/-- The helper `handleCastErrorDB`: message naming the path and offending
value, status 400. -/
def handleCastErrorDB (path value : String) : String × Nat :=
  ("Invalid " ++ path ++ ": " ++ value ++ ".", 400)

/-- The helper `handleDuplicateFieldsDB`: takes the first value of
`err.keyValue` (or the string "unknown" when `keyValue` is absent) and
builds a 400 message quoting that value. -/
def handleDuplicateFieldsDB (keyValue : List (String × String)) : String × Nat :=
  let v := match keyValue.head? with
    | some kv => kv.2
    | none => "unknown"
  ("Duplicate field value: " ++ v ++ ". Please use another value!", 400)

/-- The helper `handleValidationErrorDB`: joins the per-field messages with
". " after the prefix "Invalid input data. ", status 400. -/
def handleValidationErrorDB (msgs : List String) : String × Nat :=
  ("Invalid input data. " ++ joinWith ". " msgs, 400)

/-- The helper `handleJWTError`: fixed 401 message for an invalid token. -/
def handleJWTError : String × Nat :=
  ("Invalid token. Please log in again!", 401)

/-- The helper `handleJWTExpiredError`: fixed 401 message for an expired
token. -/
def handleJWTExpiredError : String × Nat :=
  ("Your token has expired! Please log in again.", 401)

/-- The helper `handleJoiValidationError`: joins the Joi detail messages with
"; " after the prefix "Invalid input data: ", status 400. -/
def handleJoiValidationError (msgs : List String) : String × Nat :=
  ("Invalid input data: " ++ joinWith "; " msgs, 400)

/-- The error-normalization middleware `errorHandler`. The incoming error is
normalized to a message (falling back to "An unknown error occurred") and a
status code (an absent or falsy `statusCode` becomes 500). Only in the
production environment are the recognized categories re-mapped, in source
order: mongoose CastError, driver code 11000, mongoose ValidationError,
JsonWebTokenError, TokenExpiredError, Joi ValidationError; any other error
keeps its normalized message and code. The development branch additionally
logs (a side effect outside the response, not embedded). The response body
is `{ success: "false", error: message }` with the JavaScript
logical-or fallback to Server Error on the message. -/
def errorHandler (err : RawError) (env : Env) : ErrResponse :=
  let statusCode0 : Nat :=
    match err.statusCode with
    | some n => if n = 0 then 500 else n
    | none => 500
  let message0 : String :=
    if err.message = "" then "An unknown error occurred" else err.message
  let prod : String × Nat :=
    if err.isCastError = true then handleCastErrorDB err.path err.value
    else if err.code = some 11000 then handleDuplicateFieldsDB err.keyValue
    else if err.isValidationError = true then
      handleValidationErrorDB err.validationMessages
    else if err.name = "JsonWebTokenError" then handleJWTError
    else if err.name = "TokenExpiredError" then handleJWTExpiredError
    else if err.isJoiError = true then handleJoiValidationError err.joiMessages
    else (message0, statusCode0)
  let final : String × Nat :=
    match env with
    | Env.production => prod
    | _ => (message0, statusCode0)
  let responseStatusCode := if final.2 = 0 then 500 else final.2
  let responseMessage := if final.1 = "" then "Server Error" else final.1
  { statusCode := responseStatusCode
    body := [("success", "false"), ("error", responseMessage)] }

/-- The driver error raised by an insert violating the unique email index of
UserSchema: code 11000 with `keyValue` holding the conflicting email. -/
def dupEmailErr (email : String) : RawError :=
  { name := "MongoServerError"
    message := "E11000 duplicate key error collection: users index: email_1"
    code := some 11000
    keyValue := [("email", email)] }

/-- Modelled from the spec: the register controller is not among the given
sources, so user creation is modelled as the document-store insert under the
`unique` email index declared by UserSchema — inserting a user whose email
already exists raises the driver duplicate-key error and leaves the store
unchanged; otherwise the user is appended. -/
def insertUser (store : List UserRec) (u : UserRec) :
    Except RawError UserRec × List UserRec :=
  match store.find? (fun x => decide (x.email = u.email)) with
  | some _ => (Except.error (dupEmailErr u.email), store)
  | none => (Except.ok u, store ++ [u])

/-- Sample location used by concrete evaluations. -/
def loc0 : Location := { lng := 1, lat := 2, address := "12 Main St" }

/-- Sample pending reading owned by user u1. -/
def rd1 : Reading :=
  { id := "m1", user := "u1", meterNumber := "MTR-1", reading := 10
    unit := RUnit.units, photo := "p.jpg", location := loc0
    status := RStatus.pending, createdAt := 100 }

/-- Sample reading owned by user u2. -/
def rd2 : Reading :=
  { id := "m2", user := "u2", meterNumber := "MTR-2", reading := 20
    unit := RUnit.kWh, photo := "q.jpg", location := loc0
    status := RStatus.approved, createdAt := 200 }

/-- Sample identity owning rd1. -/
def alice : Identity :=
  { id := "u1", role := Role.user, name := "Alice", email := "alice@web.co" }

/-- Sample non-owner, non-admin identity. -/
def bob : Identity :=
  { id := "u2", role := Role.user, name := "Bob", email := "bob@web.co" }

/-- Sample admin identity. -/
def rootAdmin : Identity :=
  { id := "u9", role := Role.admin, name := "Root", email := "root@web.co" }

/-- Update body that only carries a status change. -/
def statusBody : UpdateBody := { status := some RStatus.approved }

/-- Concrete unrecognized programmer error (no status code, none of the
recognized categories), with a stack trace attached. -/
def progErr : RawError :=
  { name := "TypeError"
    message := "Cannot read properties of undefined"
    stack := some "TypeError: Cannot read properties of undefined at x.js:3:1" }

/-- Sample registered user. -/
def annUser : UserRec :=
  { id := "u1", name := "Ann", email := "ann@web.co"
    password := "bcrypt-hash-1", role := Role.user }

/-- Second registration attempt with the same email as annUser. -/
def annAgain : UserRec :=
  { id := "u7", name := "Ann B", email := "ann@web.co"
    password := "bcrypt-hash-2", role := Role.user }

/-- Request body used by the concrete create evaluations: same meter number
as the pending rd1, no status supplied. -/
def createBody1 : CreateBody :=
  { meterNumber := "MTR-1", reading := 42, photo := "n.jpg", location := loc0 }

/-- Request body for a meter number with no pending reading. -/
def createBody3 : CreateBody :=
  { meterNumber := "MTR-3", reading := 7, photo := "n.jpg", location := loc0 }

/-- Membership through the descending insertion step. -/
theorem mem_insertByCreatedDesc (a r : Reading) (l : List Reading) :
    a ∈ insertByCreatedDesc r l ↔ a = r ∨ a ∈ l := by
  induction l with
  | nil => simp [insertByCreatedDesc]
  | cons x xs ih =>
    by_cases h : r.createdAt ≤ x.createdAt
    · simp only [insertByCreatedDesc, if_pos h, List.mem_cons, ih]
      tauto
    · simp only [insertByCreatedDesc, if_neg h, List.mem_cons]

/-- Sorting by creation time does not change membership. -/
theorem mem_sortByCreatedDesc (a : Reading) (l : List Reading) :
    a ∈ sortByCreatedDesc l ↔ a ∈ l := by
  induction l with
  | nil => simp [sortByCreatedDesc]
  | cons x xs ih =>
    simp only [sortByCreatedDesc, mem_insertByCreatedDesc, List.mem_cons, ih]

/-- A user found by id carries that id. -/
theorem findUser_id (store : List UserRec) (uid : String) (u : UserRec)
    (h : findUser store uid = some u) : u.id = uid := by
  have := List.find?_some h
  exact of_decide_eq_true this

/-- Appending to a nonempty string yields a nonempty string. -/
theorem string_append_ne_empty (a b : String) (h : a ≠ "") : a ++ b ≠ "" := by
  intro hc
  apply h
  cases a with
  | mk da =>
    cases b with
    | mk db =>
      have hdata : da ++ db = [] := congrArg String.data hc
      have h2 : da = [] := (List.append_eq_nil.mp hdata).1
      simp [h2]

/-- C1. On an existing reading, a requester who is neither the owning user
nor an admin gets a 401 error from get, update and delete, and the store and
uploads directory are unchanged; a requester who is the owner or any admin
passes the ownership check of all three operations (get returns the reading,
update and delete succeed). -/
theorem ownership_gate (requester : Identity) (rid : String)
    (body : UpdateBody) (now : Nat) (store : List Reading)
    (files : List String) (r : Reading)
    (hfind : findReading store rid = some r) :
    (r.user ≠ requester.id ∧ requester.role ≠ Role.admin →
      getMeterReading requester rid store =
        Except.error ⟨"User " ++ requester.id ++
          " is not authorized to access this meter reading", 401⟩ ∧
      updateMeterReading requester rid body now store =
        (Except.error ⟨"User " ++ requester.id ++
          " is not authorized to update this meter reading", 401⟩, store) ∧
      deleteMeterReading requester rid store files =
        (Except.error ⟨"User " ++ requester.id ++
          " is not authorized to delete this meter reading", 401⟩, store, files))
    ∧
    (r.user = requester.id ∨ requester.role = Role.admin →
      getMeterReading requester rid store = Except.ok r ∧
      (∃ r2, (updateMeterReading requester rid body now store).1 = Except.ok r2) ∧
      (deleteMeterReading requester rid store files).1 = Except.ok ()) := by
  constructor
  · intro h
    refine ⟨?_, ?_, ?_⟩
    · simp only [getMeterReading, hfind, if_pos h]
    · simp only [updateMeterReading, hfind, if_pos h]
    · simp only [deleteMeterReading, hfind, if_pos h]
  · intro h
    have hn : ¬(r.user ≠ requester.id ∧ requester.role ≠ Role.admin) := by
      rcases h with h | h
      · exact fun hc => hc.1 h
      · exact fun hc => hc.2 h
    refine ⟨?_, ?_, ?_⟩
    · simp only [getMeterReading, hfind, if_neg hn]
    · simp only [updateMeterReading, hfind, if_neg hn]
      exact ⟨_, rfl⟩
    · simp only [deleteMeterReading, hfind, if_neg hn]

/-- Witness for C1: the stranger bob is rejected with 401 on get, and the
admin passes the ownership check, on the concrete store holding rd1. -/
theorem ownership_gate_witness :
    getMeterReading bob "m1" [rd1] =
      Except.error ⟨"User u2 is not authorized to access this meter reading", 401⟩ ∧
    getMeterReading rootAdmin "m1" [rd1] = Except.ok rd1 := by
  constructor
  · exact ((ownership_gate bob "m1" {} 0 [rd1] [] rd1 (by decide)).1 (by decide)).1
  · exact ((ownership_gate rootAdmin "m1" {} 0 [rd1] [] rd1 (by decide)).2
      (Or.inr rfl)).1

/-- Counterexample for C2: alice, a non-admin, owns the pending reading rd1;
her update carrying a status change succeeds and the status of the stored reading
does change to approved (and no approver is stamped), so a non-admin update
can change the status of a reading. -/
theorem nonadmin_status_change_cex :
    alice.role ≠ Role.admin ∧
    rd1.status = RStatus.pending ∧
    (updateMeterReading alice "m1" statusBody 77 [rd1]).1 =
      Except.ok { rd1 with status := RStatus.approved } ∧
    (updateMeterReading alice "m1" statusBody 77 [rd1]).2 =
      [{ rd1 with status := RStatus.approved }] := by
  refine ⟨by decide, rfl, rfl, rfl⟩

/-- C2 (amended). When the update of an admin carries a status, the id of that admin and
the current time are stamped as approvedBy/approvedAt onto the updated
reading; an update by a non-admin owner carrying a status is also applied — the status of the
reading becomes the supplied status — with no approver stamp added
(the approver field stays what the body says, i.e. unchanged for a body
without one). -/
theorem update_status_stamping (requester : Identity) (rid : String)
    (body : UpdateBody) (now : Nat) (store : List Reading) (r : Reading)
    (s : RStatus) (hfind : findReading store rid = some r) :
    (requester.role = Role.admin → body.status.isSome = true →
      (updateMeterReading requester rid body now store).1 =
        Except.ok (applyUpdate r
          { body with approvedBy := some requester.id, approvedAt := some now }) ∧
      (applyUpdate r
        { body with approvedBy := some requester.id, approvedAt := some now }).approvedBy =
          some requester.id ∧
      (applyUpdate r
        { body with approvedBy := some requester.id, approvedAt := some now }).approvedAt =
          some now)
    ∧
    (requester.role ≠ Role.admin → r.user = requester.id → body.status = some s →
      (updateMeterReading requester rid body now store).1 =
        Except.ok (applyUpdate r body) ∧
      (applyUpdate r body).status = s ∧
      (body.approvedBy = none → (applyUpdate r body).approvedBy = r.approvedBy)) := by
  constructor
  · intro hAdmin hS
    have hn : ¬(r.user ≠ requester.id ∧ requester.role ≠ Role.admin) :=
      fun hc => hc.2 hAdmin
    refine ⟨?_, by simp [applyUpdate], by simp [applyUpdate]⟩
    simp only [updateMeterReading, hfind, if_neg hn, if_pos (And.intro hS hAdmin)]
  · intro hNotAdmin hOwner hS
    have hn : ¬(r.user ≠ requester.id ∧ requester.role ≠ Role.admin) :=
      fun hc => hc.1 hOwner
    have hn2 : ¬(body.status.isSome = true ∧ requester.role = Role.admin) :=
      fun hc => hNotAdmin hc.2
    refine ⟨?_, ?_, ?_⟩
    · simp only [updateMeterReading, hfind, if_neg hn, if_neg hn2]
    · simp [applyUpdate, hS]
    · intro hB
      simp [applyUpdate, hB]

/-- Witness for C2 (amended): the admin updates rd1 with a status change and
the result carries the id of the admin and time 77 as approver stamp; the
non-admin status update is applied without a stamp. -/
theorem update_status_stamping_witness :
    (updateMeterReading rootAdmin "m1" statusBody 77 [rd1]).1 =
      Except.ok (applyUpdate rd1
        { statusBody with approvedBy := some "u9", approvedAt := some 77 }) ∧
    (applyUpdate rd1 statusBody).status = RStatus.approved := by
  constructor
  · exact ((update_status_stamping rootAdmin "m1" statusBody 77 [rd1] rd1
      RStatus.approved (by decide)).1 rfl rfl).1
  · exact ((update_status_stamping alice "m1" statusBody 77 [rd1] rd1
      RStatus.approved (by decide)).2 (by decide) rfl rfl).2.1

/-- C3. Every reading in the list response of a role-user requester is owned
by that requester, and the list response of an admin is the status-filtered,
sorted, paginated store with no owner condition at all. -/
theorem list_scoping (requester : Identity) (page limit : Nat)
    (statusFilter : Option RStatus) (store : List Reading) :
    (requester.role = Role.user →
      ∀ r ∈ (getMeterReadings requester page limit statusFilter store).data,
        r.user = requester.id)
    ∧
    (requester.role = Role.admin →
      (getMeterReadings requester page limit statusFilter store).data =
        ((sortByCreatedDesc (store.filter (fun r =>
            match statusFilter with
            | none => true
            | some s => decide (r.status = s)))).drop ((page - 1) * limit)).take
          limit) := by
  constructor
  · intro hU r hr
    simp only [getMeterReadings] at hr
    have hsorted := List.mem_of_mem_drop (List.mem_of_mem_take hr)
    have hfilter := (mem_sortByCreatedDesc r _).mp hsorted
    have hq := List.of_mem_filter hfilter
    rw [hU] at hq
    have hq2 := (Bool.and_eq_true _ _).mp hq
    exact of_decide_eq_true hq2.2
  · intro hA
    simp only [getMeterReadings, hA, Bool.and_true]

/-- Witness for C3: on the concrete store holding the readings of alice
and bob, the page served to alice contains only readings she owns. -/
theorem list_scoping_witness : rd1.user = alice.id :=
  (list_scoping alice 1 10 none [rd1, rd2]).1 rfl rd1 (by decide)

/-- Counterexample for C4: in production, the unrecognized error progErr is
answered with status 500 but the client-visible message is exactly the
message of the internal error — it is passed through, not replaced by a generic
message. -/
theorem production_message_leak_cex :
    (errorHandler progErr Env.production).statusCode = 500 ∧
    List.lookup "error" (errorHandler progErr Env.production).body =
      some progErr.message := by
  constructor
  · rfl
  · rfl

/-- C4 (amended). In production, an error that is in none of the recognized
categories and carries no explicit status code is answered with status 500
and with the message of the internal error passed through (or the fixed fallback
when the message is empty); no response of the middleware, in any
environment, ever carries a stack entry — its body always has exactly the
keys success and error. -/
theorem unrecognized_error_production (err : RawError)
    (h1 : err.statusCode = none) (h2 : err.isCastError = false)
    (h3 : err.code ≠ some 11000) (h4 : err.isValidationError = false)
    (h5 : err.name ≠ "JsonWebTokenError") (h6 : err.name ≠ "TokenExpiredError")
    (h7 : err.isJoiError = false) (h8 : err.message ≠ "") :
    errorHandler err Env.production =
      { statusCode := 500
        body := [("success", "false"), ("error", err.message)] } ∧
    ∀ e : RawError, ∀ env : Env,
      List.lookup "stack" (errorHandler e env).body = none ∧
      (errorHandler e env).body.map Prod.fst = ["success", "error"] := by
  constructor
  · simp [errorHandler, h1, h2, h3, h4, h5, h6, h7, h8]
  · intro e env
    constructor
    · simp [errorHandler, List.lookup]
    · simp [errorHandler]

/-- Witness for C4 (amended): the concrete progErr in production gets a 500
with its own message in the body, and a concrete response has no stack key. -/
theorem unrecognized_error_production_witness :
    errorHandler progErr Env.production =
      { statusCode := 500
        body := [("success", "false"),
          ("error", "Cannot read properties of undefined")] } ∧
    List.lookup "stack" (errorHandler progErr Env.development).body = none := by
  constructor
  · exact (unrecognized_error_production progErr rfl rfl (by decide) rfl
      (by decide) (by decide) rfl (by decide)).1
  · exact ((unrecognized_error_production progErr rfl rfl (by decide) rfl
      (by decide) (by decide) rfl (by decide)).2 progErr Env.development).1

/-- Counterexample for C5: in production, the duplicate-key error for the
email ann@web.co is mapped to status 400, but the message quotes the
conflicting value and never names the conflicting field — the string "email"
is not a substring of the message. -/
theorem duplicate_field_name_cex :
    (errorHandler (dupEmailErr "ann@web.co") Env.production).statusCode = 400 ∧
    List.lookup "error" (errorHandler (dupEmailErr "ann@web.co") Env.production).body =
      some "Duplicate field value: ann@web.co. Please use another value!" ∧
    ¬ ("email".data <:+:
        "Duplicate field value: ann@web.co. Please use another value!".data) := by
  refine ⟨rfl, rfl, by decide⟩

/-- C5 (amended). Registering a user whose email already exists creates no
record (the store is returned unchanged) and raises the driver duplicate-key
error; in production the error-normalization middleware answers it with
status 400 and a message quoting the conflicting value (the email), not the
field name. -/
theorem duplicate_email_production (store : List UserRec) (u : UserRec)
    (hdup : (store.find? (fun x => decide (x.email = u.email))).isSome = true) :
    insertUser store u = (Except.error (dupEmailErr u.email), store) ∧
    (errorHandler (dupEmailErr u.email) Env.production).statusCode = 400 ∧
    List.lookup "error" (errorHandler (dupEmailErr u.email) Env.production).body =
      some ("Duplicate field value: " ++ u.email ++ ". Please use another value!") := by
  refine ⟨?_, ?_, ?_⟩
  · obtain ⟨w, hw⟩ := Option.isSome_iff_exists.mp hdup
    simp only [insertUser, hw]
  · have hne : ("Duplicate field value: " ++ u.email ++
        ". Please use another value!") ≠ "" :=
      string_append_ne_empty _ _ (string_append_ne_empty _ _ (by decide))
    simp [errorHandler, dupEmailErr, handleDuplicateFieldsDB, hne]
  · have hne : ("Duplicate field value: " ++ u.email ++
        ". Please use another value!") ≠ "" :=
      string_append_ne_empty _ _ (string_append_ne_empty _ _ (by decide))
    simp [errorHandler, dupEmailErr, handleDuplicateFieldsDB, hne, List.lookup]

/-- Witness for C5 (amended): registering annAgain over a store already
holding annUser leaves the store unchanged and raises the duplicate-key
error for her email. -/
theorem duplicate_email_production_witness :
    insertUser [annUser] annAgain =
      (Except.error (dupEmailErr "ann@web.co"), [annUser]) ∧
    (errorHandler (dupEmailErr "ann@web.co") Env.production).statusCode = 400 := by
  constructor
  · exact (duplicate_email_production [annUser] annAgain (by decide)).1
  · exact (duplicate_email_production [annUser] annAgain (by decide)).2.1

/-- C6. A create request (passing route validation) for a meter number that
already has a pending reading fails with the 400 conflict error and leaves
the store unchanged; otherwise the reading is persisted with the requester
attached as owner and, the body carrying no status, with the schema default
status pending. -/
theorem create_pending_conflict (requester : Identity) (body : CreateBody)
    (newId : String) (now : Nat) (store : List Reading) :
    ((store.find? (fun r => decide (r.meterNumber = body.meterNumber ∧
        r.status = RStatus.pending))).isSome = true →
      createMeterReading requester body true newId now store =
        (Except.error
          ⟨"There is already a pending reading for meter " ++ body.meterNumber,
            400⟩, store))
    ∧
    (store.find? (fun r => decide (r.meterNumber = body.meterNumber ∧
        r.status = RStatus.pending)) = none →
      body.status = none →
      ∃ created : Reading,
        createMeterReading requester body true newId now store =
          (Except.ok created, store ++ [created]) ∧
        created.user = requester.id ∧
        created.status = RStatus.pending) := by
  constructor
  · intro h
    obtain ⟨w, hw⟩ := Option.isSome_iff_exists.mp h
    simp only [createMeterReading, hw]
    rfl
  · intro h hS
    simp only [createMeterReading, h]
    exact ⟨_, rfl, rfl, by simp [hS]⟩

/-- Witness for C6: over the store holding the pending rd1, creating another
reading for meter MTR-1 is rejected with the conflict error and the store is
unchanged; creating one for the free meter MTR-3 persists it with owner bob
and status pending. -/
theorem create_pending_conflict_witness :
    createMeterReading bob createBody1 true "m9" 300 [rd1] =
      (Except.error
        ⟨"There is already a pending reading for meter MTR-1", 400⟩, [rd1]) ∧
    ∃ created : Reading,
      createMeterReading bob createBody3 true "m9" 300 [rd1] =
        (Except.ok created, [rd1] ++ [created]) ∧
      created.user = bob.id ∧
      created.status = RStatus.pending := by
  constructor
  · exact (create_pending_conflict bob createBody1 "m9" 300 [rd1]).1 (by decide)
  · exact (create_pending_conflict bob createBody3 "m9" 300 [rd1]).2
      (by decide) rfl

/-- C7. The auth middleware contract: an absent or non-Bearer header, a
Bearer header without a token part, a missing or empty configured secret, or
a failed verification all yield 401; a verified token whose user no longer
exists yields 404; otherwise the identity id/role/name/email of the resolved
user (which carries no password) is attached. -/
theorem protect_contract (t : Jwt) (s uid hs : String)
    (store : List UserRec) (u : UserRec) (envSecret : Option String) :
    (protect AuthHeader.missing envSecret store =
      Except.error ⟨"Not authorized, no token", 401⟩) ∧
    (protect (AuthHeader.nonBearer hs) envSecret store =
      Except.error ⟨"Not authorized, no token", 401⟩) ∧
    (protect AuthHeader.bearerOnly envSecret store =
      Except.error ⟨"Not authorized, token failed", 401⟩) ∧
    (protect (AuthHeader.bearer t) none store =
      Except.error ⟨"Not authorized, token failed", 401⟩) ∧
    (protect (AuthHeader.bearer t) (some "") store =
      Except.error ⟨"Not authorized, token failed", 401⟩) ∧
    (s ≠ "" → verifyJwt t s = none →
      protect (AuthHeader.bearer t) (some s) store =
        Except.error ⟨"Not authorized, token failed", 401⟩) ∧
    (s ≠ "" → verifyJwt t s = some uid → findUser store uid = none →
      protect (AuthHeader.bearer t) (some s) store =
        Except.error ⟨"User not found", 404⟩) ∧
    (s ≠ "" → verifyJwt t s = some uid → findUser store uid = some u →
      protect (AuthHeader.bearer t) (some s) store =
        Except.ok ⟨u.id, u.role, u.name, u.email⟩) := by
  refine ⟨rfl, rfl, rfl, rfl, rfl, ?_, ?_, ?_⟩
  · intro hsne hv
    simp only [protect, if_neg hsne, hv]
  · intro hsne hv hf
    simp only [protect, if_neg hsne, hv, hf]
  · intro hsne hv hf
    simp only [protect, if_neg hsne, hv, hf]

/-- Witness for C7: a token signed with the configured secret sec1 for the
id of ann resolves to her identity; tampering the secret fails with 401. -/
theorem protect_contract_witness :
    protect (AuthHeader.bearer (Jwt.signed "u1" "sec1")) (some "sec1") [annUser] =
      Except.ok ⟨"u1", Role.user, "Ann", "ann@web.co"⟩ ∧
    protect (AuthHeader.bearer (Jwt.signed "u1" "other")) (some "sec1") [annUser] =
      Except.error ⟨"Not authorized, token failed", 401⟩ := by
  constructor
  · exact (protect_contract (Jwt.signed "u1" "sec1") "sec1" "u1" "x" [annUser]
      annUser (some "sec1")).2.2.2.2.2.2.2 (by decide) rfl (by decide)
  · exact (protect_contract (Jwt.signed "u1" "other") "sec1" "u1" "x" [annUser]
      annUser (some "sec1")).2.2.2.2.2.1 (by decide) rfl

/-- C8. With the secret configured (nonempty) and identical at signing and
verification time, a token issued by getSignedJwtToken, fed through the auth
middleware, resolves to an identity whose id is the id of the signing user. -/
theorem sign_verify_round_trip (store : List UserRec) (u w : UserRec)
    (s : String) (hs : s ≠ "") (hfind : findUser store u.id = some w) :
    protect (AuthHeader.bearer (getSignedJwtToken u (some s))) (some s) store =
      Except.ok ⟨w.id, w.role, w.name, w.email⟩ ∧
    w.id = u.id := by
  refine ⟨?_, findUser_id store u.id w hfind⟩
  simp [protect, getSignedJwtToken, verifyJwt, hs, hfind]

/-- Witness for C8: the signed token of ann round-trips to her own id through the
middleware over the store holding her record. -/
theorem sign_verify_round_trip_witness :
    protect (AuthHeader.bearer (getSignedJwtToken annUser (some "sec1")))
        (some "sec1") [annUser] =
      Except.ok ⟨"u1", Role.user, "Ann", "ann@web.co"⟩ :=
  (sign_verify_round_trip [annUser] annUser annUser "sec1" (by decide)
    (by decide)).1

/-- C9. The radius search passes the radius distance/3963 (Earth radius in
miles) to the spherical query, centered on the geocoded coordinates, and its
result set is exactly the readings whose location the spherical-cap
predicate accepts for that center and radius. -/
theorem radius_search (geoWithin : ℚ × ℚ → ℚ → Location → Bool)
    (zipcode : String) (distance : Nat) (store : List Reading) :
    (getReadingsInRadius geoWithin zipcode distance store).radius =
      (distance : ℚ) / 3963 ∧
    (getReadingsInRadius geoWithin zipcode distance store).center =
      ((geocode zipcode).2, (geocode zipcode).1) ∧
    ∀ r : Reading,
      r ∈ (getReadingsInRadius geoWithin zipcode distance store).data ↔
        r ∈ store ∧
        geoWithin ((geocode zipcode).2, (geocode zipcode).1)
          ((distance : ℚ) / 3963) r.location = true := by
  refine ⟨rfl, rfl, ?_⟩
  intro r
  simp [getReadingsInRadius, List.mem_filter]

/-- C10. getResetPasswordToken returns the plaintext token produced by the
entropy source, stores exactly its SHA-256 hash in resetPasswordToken and
now + 10 minutes (in milliseconds) in resetPasswordExpire, leaves every
other field unchanged, and whenever the hash differs from the plaintext the
stored field is not the plaintext. -/
theorem reset_token_hashing (sha256 : String → String) (randomToken : String)
    (now : Nat) (u : UserRec) :
    (getResetPasswordToken sha256 randomToken now u).1 = randomToken ∧
    (getResetPasswordToken sha256 randomToken now u).2 =
      { u with
        resetPasswordToken := some (sha256 randomToken)
        resetPasswordExpire := some (now + 10 * 60 * 1000) } ∧
    (sha256 randomToken ≠ randomToken →
      (getResetPasswordToken sha256 randomToken now u).2.resetPasswordToken ≠
        some randomToken) := by
  refine ⟨rfl, rfl, ?_⟩
  intro hne hc
  exact hne (Option.some.inj hc)

/-- Witness for C10: with a concrete injective-looking hash, the stored
reset field is the hash and not the plaintext, and the expiry is
now + 600000 ms. -/
theorem reset_token_hashing_witness :
    (getResetPasswordToken (fun x => "h:" ++ x) "tok20" 1000 annUser).2.resetPasswordToken ≠
      some "tok20" ∧
    (getResetPasswordToken (fun x => "h:" ++ x) "tok20" 1000 annUser).2 =
      { annUser with
        resetPasswordToken := some "h:tok20"
        resetPasswordExpire := some 601000 } := by
  constructor
  · exact (reset_token_hashing (fun x => "h:" ++ x) "tok20" 1000 annUser).2.2
      (by decide)
  · exact (reset_token_hashing (fun x => "h:" ++ x) "tok20" 1000 annUser).2.1
